import Mathlib

/-!
Verification development for the leaflet-node headless-rendering package.

The TypeScript modules are shallowly embedded: JS strings become `List Char`,
JS numbers become `Int` (with `Option Int` standing for a value that may be
`NaN`/missing, since `parseFloat`/`parseInt` can produce `NaN` and property
reads can produce `undefined`), promises returning a value or throwing become
`Except`, and process-global mutable state becomes explicit state passing.
External collaborators (the network, the filesystem, the raster engine's
image decoder, base64 decoding) are supplied as function-valued fields of an
environment record, since they are out of scope for the package itself.
-/

namespace LeafletNode

/-- JS strings, embedded as lists of characters. -/
abbrev JSString := List Char

/-- JS truthiness of a possibly-absent string: `undefined`, `null` and the
empty string are falsy. -/
def jsTruthy : Option JSString → Bool
  | none => false
  | some s => !s.isEmpty

/-! ## Resource loader (`src/image.ts`)

`stripQuerystring`, `fileExists`, `loadFromUrl`, `loadFromFile`,
`loadImageSource` and `bufferToImage`, embedded over an explicit environment
for the external collaborators. -/

/-- A decoded raster-engine image handle (`CanvasImage` once loaded). -/
structure DecodedImage where
  width : Int
  height : Int
deriving DecidableEq, Repr

/-- A fetch response as observed by the loader: status code, status text and
body bytes. -/
structure FetchResponse where
  status : Int
  statusText : JSString
  body : List Nat
deriving DecidableEq, Repr

/-- `response.ok` per the WHATWG fetch standard used by undici: a 2xx
status. -/
def FetchResponse.ok (r : FetchResponse) : Bool :=
  200 ≤ r.status && r.status ≤ 299

/-- Outcome of `fetch(url)`: either the promise rejects (network-level
failure) or a response arrives. -/
inductive FetchOutcome
  | networkFailure
  | response (r : FetchResponse)
deriving DecidableEq, Repr

/-- External collaborators of the resource loader. -/
structure LoadEnv where
  fetch : JSString → FetchOutcome
  fileExists : JSString → Bool
  readFile : JSString → List Nat
  decodeImage : List Nat → Option DecodedImage
  base64Decode : JSString → List Nat

/-- The loader's failure values.  The source throws plain `Error`s with
distinct messages; each constructor corresponds to one throw site (or, for
`decodeFailure`, to the raster engine's opaque rejection). -/
inductive LoadError
  | fetchError (url : JSString) (statusInfo : Option (Int × JSString))
  | notFoundError (path : JSString)
  | invalidDataUri
  | decodeFailure (bytes : List Nat)
deriving DecidableEq, Repr

/-- The spec's three error kinds. -/
inductive ErrKind
  | fetch
  | notFound
  | decode
deriving DecidableEq, Repr

/-- Classify a loader failure into the spec's taxonomy: `FetchError` for the
network/status throw site, `NotFoundError` for the missing-file throw site,
`DecodeError` for both the invalid-data-URI throw site and the raster
engine's decode rejection. -/
def LoadError.kind : LoadError → ErrKind
  | .fetchError _ _ => .fetch
  | .notFoundError _ => .notFound
  | .invalidDataUri => .decode
  | .decodeFailure _ => .decode

/-- `stripQuerystring(url)`: cut at the first `?`, if any. -/
def stripQuerystring (url : JSString) : JSString :=
  match url.findIdx? (· == '?') with
  | some queryIndex => url.take queryIndex
  | none => url

/-- `loadFromUrl(url)`: fetch, require a 2xx status, return the body bytes. -/
def loadFromUrl (env : LoadEnv) (url : JSString) : Except LoadError (List Nat) :=
  match env.fetch url with
  | .networkFailure => .error (.fetchError url none)
  | .response r =>
    if r.ok then .ok r.body
    else .error (.fetchError url (some (r.status, r.statusText)))

/-- `loadFromFile(path)`: strip the query string, check existence, read. -/
def loadFromFile (env : LoadEnv) (path : JSString) : Except LoadError (List Nat) :=
  let cleanPath := stripQuerystring path
  if env.fileExists cleanPath then .ok (env.readFile cleanPath)
  else .error (.notFoundError cleanPath)

/-- Per-character byte encoding of the data-URI payload, standing for
`Buffer.from(data, 'utf-8')`: the payload is taken literally, character by
character, with no percent-decoding. -/
def utf8Encode (s : JSString) : List Nat :=
  s.map Char.toNat

/-- `src.lastIndexOf(pat, k) !== -1`: does `pat` occur in `s` starting at
some index `≤ k`? -/
def occursAtLe (pat s : JSString) (k : Nat) : Bool :=
  (List.range (k + 1)).any (fun i => pat.isPrefixOf (s.drop i))

/-- The buffer-producing half of `loadImageSource`: the prefix dispatch down
to a byte buffer, before the raster engine decodes it. -/
def loadImageBuffer (env : LoadEnv) (src : JSString) : Except LoadError (List Nat) :=
  if "https://".data.isPrefixOf src || "http://".data.isPrefixOf src then
    loadFromUrl env src
  else if "data:".data.isPrefixOf src then
    match src.findIdx? (· == ',') with
    | none => .error .invalidDataUri
    | some commaIndex =>
      let isBase64 := occursAtLe ";base64,".data src commaIndex
      let data := src.drop (commaIndex + 1)
      .ok (if isBase64 then env.base64Decode data else utf8Encode data)
  else if "file://".data.isPrefixOf src then
    loadFromFile env (src.drop 7)
  else
    loadFromFile env src

/-- `bufferToImage(buffer)`: hand the bytes to the raster engine; its
rejection is surfaced as a decode failure carrying the offending bytes. -/
def bufferToImage (env : LoadEnv) (buffer : List Nat) : Except LoadError DecodedImage :=
  match env.decodeImage buffer with
  | some image => .ok image
  | none => .error (.decodeFailure buffer)

/-- `loadImageSource(src)`: dispatch on the source string, produce a buffer,
decode it. -/
def loadImageSource (env : LoadEnv) (src : JSString) : Except LoadError DecodedImage :=
  (loadImageBuffer env src).bind (bufferToImage env)

/-- Source-kind classifier written from the spec's words: `http://`/`https://`
first, then `data:`, then `file://`, then bare filesystem path. -/
inductive SourceKind
  | network
  | dataUri
  | fileUrl
  | barePath
deriving DecidableEq, Repr

/-- Modelled from the spec sentence on source-kind dispatch precedence. -/
def classifySource (src : JSString) : SourceKind :=
  if "https://".data.isPrefixOf src || "http://".data.isPrefixOf src then .network
  else if "data:".data.isPrefixOf src then .dataUri
  else if "file://".data.isPrefixOf src then .fileUrl
  else .barePath

/-! ## Proxy dispatcher (`src/image.ts`, `resolveProxyDispatcher`)

Process-wide cached state: `cachedDispatcher` starts out `undefined`
(outer `none`), and is set to either a `ProxyAgent` or `null`
(inner `Option`) on first resolution. -/

/-- The undici dispatcher actually constructed: `new ProxyAgent(proxyUrl)`. -/
inductive Dispatcher
  | proxyAgent (proxyUrl : JSString)
deriving DecidableEq, Repr

/-- The proxy-relevant environment variables; `none` stands for an unset
variable. -/
structure ProxyEnv where
  HTTPS_PROXY : Option JSString
  https_proxy : Option JSString
  HTTP_PROXY : Option JSString
  http_proxy : Option JSString
  ALL_PROXY : Option JSString
  all_proxy : Option JSString

/-- First truthy value of a list of optional strings, as a JS `||` chain
ending in `null`. -/
def firstTruthy : List (Option JSString) → Option JSString
  | [] => none
  | o :: rest => if jsTruthy o then o else firstTruthy rest

/-- The `env.HTTPS_PROXY || env.https_proxy || env.HTTP_PROXY ||
env.http_proxy || env.ALL_PROXY || env.all_proxy || null` chain. -/
def proxyUrlOf (env : ProxyEnv) : Option JSString :=
  firstTruthy
    [env.HTTPS_PROXY, env.https_proxy, env.HTTP_PROXY, env.http_proxy,
     env.ALL_PROXY, env.all_proxy]

/-- `resolveProxyDispatcher()`, with the module-level `cachedDispatcher`
variable passed explicitly.  Returns the resolved dispatcher (or `none` for
no proxy) together with the updated cache. -/
def resolveProxyDispatcher (env : ProxyEnv) (cachedDispatcher : Option (Option Dispatcher)) :
    Option Dispatcher × Option (Option Dispatcher) :=
  match cachedDispatcher with
  | some cached => (cached, some cached)
  | none =>
    let resolved :=
      match proxyUrlOf env with
      | some proxyUrl => some (Dispatcher.proxyAgent proxyUrl)
      | none => none
    (resolved, some resolved)

/-! ## CSS transform parsing and element positioning
(`src/export-image.ts`: `parseTransform`, `accumulateLeafletPosition`,
`resolveElementPosition`)

A CSS `transform` string is embedded at the level the source's regex
extracts it: a list of recognised transform functions with their numeric
arguments, where an argument is `Option Int` (`none` = `parseFloat`
returned a non-finite value).  `Option (List TransformFn)` is `none` for a
missing or `'none'` transform. -/

/-- The transform functions recognised by the source's regex. -/
inductive TransformFn
  | matrix (args : List (Option Int))
  | matrix3d (args : List (Option Int))
  | translate3d (args : List (Option Int))
  | translate (args : List (Option Int))
  | translateX (args : List (Option Int))
  | translateY (args : List (Option Int))
deriving DecidableEq, Repr

/-- Accumulator of `parseTransform`: running totals plus the `hasValue`
flag. -/
structure TransformResult where
  x : Int
  y : Int
  hasValue : Bool
deriving DecidableEq, Repr

/-- Add one finite component to the accumulator, mirroring
`if (Number.isFinite(v)) { total += v; hasValue = hasValue || v !== 0; }`. -/
def addComponentX (acc : TransformResult) : Option Int → TransformResult
  | some v => { acc with x := acc.x + v, hasValue := acc.hasValue || v != 0 }
  | none => acc

/-- `addComponentX` for the y axis. -/
def addComponentY (acc : TransformResult) : Option Int → TransformResult
  | some v => { acc with y := acc.y + v, hasValue := acc.hasValue || v != 0 }
  | none => acc

/-- One iteration of the source's regex-match loop. -/
def applyTransformFn (acc : TransformResult) : TransformFn → TransformResult
  | .matrix args =>
    if args.length ≥ 6 then
      addComponentY (addComponentX acc ((args.get? 4).bind id)) ((args.get? 5).bind id)
    else acc
  | .matrix3d args =>
    if args.length ≥ 16 then
      addComponentY (addComponentX acc ((args.get? 12).bind id)) ((args.get? 13).bind id)
    else acc
  | .translate3d args =>
    addComponentY (addComponentX acc ((args.get? 0).bind id)) ((args.get? 1).bind id)
  | .translate args =>
    addComponentY (addComponentX acc ((args.get? 0).bind id)) ((args.get? 1).bind id)
  | .translateX args =>
    if args.length ≥ 1 then addComponentX acc ((args.get? 0).bind id) else acc
  | .translateY args =>
    if args.length ≥ 1 then addComponentY acc ((args.get? 0).bind id) else acc

/-- `parseTransform(transform)`: sum the translation components of every
recognised transform function; `hasValue` records whether any nonzero
finite component was seen. -/
def parseTransform (transform : Option (List TransformFn)) : TransformResult :=
  match transform with
  | none => ⟨0, 0, false⟩
  | some fns => fns.foldl applyTransformFn ⟨0, 0, false⟩

/-- The per-element data read by the positioning code.  CSS pixel values
(`style.left`, `style.top`, `style.marginLeft`, `style.marginTop`) are
embedded at the `parseCssPx` result level: `Option Int`, `none` for a
missing or unparseable value.  `_leaflet_pos` may be absent (outer `none`)
or carry non-finite coordinates (inner `none`). -/
structure ElemProps where
  leafletPos : Option (Option Int × Option Int)
  transform : Option (List TransformFn)
  left : Option Int
  top : Option Int
  marginLeft : Option Int
  marginTop : Option Int
  offsetLeft : Option Int
  offsetTop : Option Int
deriving Repr

/-- One step of the `accumulateLeafletPosition` while-loop over a visited
element: prefer the finite `_leaflet_pos` annotation, else a transform with
`hasValue`. -/
def accumulateStep (acc : Int × Int × Bool) (e : ElemProps) : Int × Int × Bool :=
  match e.leafletPos with
  | some (some px, some py) => (acc.1 + px, acc.2.1 + py, true)
  | _ =>
    let t := parseTransform e.transform
    if t.hasValue then (acc.1 + t.x, acc.2.1 + t.y, true) else acc

/-- `accumulateLeafletPosition(element, container)`: the while-loop walks
from the element itself through its ancestors strictly below the container;
`visited` is that list, element first. -/
def accumulateLeafletPosition (visited : List ElemProps) : Option (Int × Int) :=
  let r := visited.foldl accumulateStep (0, 0, false)
  if r.2.2 then some (r.1, r.2.1) else none

/-- `resolveElementPosition(element, container)`: accumulated position when
found, else the element's own transform plus `left`/`top` (falling back to
`offsetLeft`/`offsetTop`); margins are added in all cases. -/
def resolveElementPosition (element : ElemProps) (ancestors : List ElemProps) : Int × Int :=
  let accumulated := accumulateLeafletPosition (element :: ancestors)
  let x0 := (accumulated.map Prod.fst).getD 0
  let y0 := (accumulated.map Prod.snd).getD 0
  let xy :=
    match accumulated with
    | some _ => (x0, y0)
    | none =>
      let t := parseTransform element.transform
      let x1 := if t.hasValue then x0 + t.x else x0
      let y1 := if t.hasValue then y0 + t.y else y0
      let x2 :=
        match element.left with
        | some leftPx => x1 + leftPx
        | none =>
          match element.offsetLeft with
          | some o => x1 + o
          | none => x1
      let y2 :=
        match element.top with
        | some topPx => y1 + topPx
        | none =>
          match element.offsetTop with
          | some o => y1 + o
          | none => y1
      (x2, y2)
  let x3 :=
    match element.marginLeft with
    | some m => xy.1 + m
    | none => xy.1
  let y3 :=
    match element.marginTop with
    | some m => xy.2 + m
    | none => xy.2
  (x3, y3)

/-! Spec-side restatement of the positioning algorithm, written from the
claim's words, to be proved equal to the source embedding. -/

/-- Modelled from the spec: what one visited element "contributes" — its
`_leaflet_pos` annotation when present (and finite), otherwise the summed
translation components of its parsed CSS transform (when any are nonzero),
otherwise nothing. -/
def elemContribution (e : ElemProps) : Option (Int × Int) :=
  match e.leafletPos with
  | some (some px, some py) => some (px, py)
  | _ =>
    let t := parseTransform e.transform
    if t.hasValue then some (t.x, t.y) else none

/-- Modelled from the spec: the element's own `left`/`top` style pixels or
DOM `offsetLeft`/`offsetTop` fallback, per axis. -/
def ownFallback (e : ElemProps) : Int × Int :=
  ((e.left.orElse fun _ => e.offsetLeft).getD 0,
   (e.top.orElse fun _ => e.offsetTop).getD 0)

/-- Modelled from the spec: the element's own margin corrections. -/
def marginCorrection (e : ElemProps) : Int × Int :=
  (e.marginLeft.getD 0, e.marginTop.getD 0)

/-- Modelled from the spec: sum the contributions of the visited elements;
only when no visited element contributed fall back to the element's own
`left`/`top` or offset properties; always add the margins. -/
def resolveElementPositionSpec (element : ElemProps) (ancestors : List ElemProps) : Int × Int :=
  let contribs := (element :: ancestors).filterMap elemContribution
  let base :=
    if contribs.isEmpty then ownFallback element
    else ((contribs.map Prod.fst).sum, (contribs.map Prod.snd).sum)
  let m := marginCorrection element
  (base.1 + m.1, base.2 + m.2)

/-! ## Compositor / export pipeline (`src/export-image.ts`, `mapToCanvas`)

The live DOM subtree is embedded as the data `mapToCanvas` reads from it:
whether the container is a usable element, the list of drawable
(`canvas, img`) descendants found by the initial scan, and the list found
by the re-scan after the transient forcing circle has been added.  The
popup-overlay pass at the end is embedded as an opaque list of draw
operations contributed by the map. -/

/-- JS `a || b` on numbers as used for the image size chain (`0` and `NaN`
are falsy; `NaN` is collapsed to `0` beforehand by the embedding of
`parseInt(attr || String.quote 0, 10)`). -/
def jsOrNum (a b : Int) : Int :=
  if a != 0 then a else b

/-- The data of an `img` drawable element read during compositing. -/
structure ImgData where
  src : Option JSString
  cached : Option DecodedImage
  widthProp : Int
  heightProp : Int
  widthAttr : Option Int
  heightAttr : Option Int
  cssWidth : Option Int
  cssHeight : Option Int
deriving Repr

/-- The payload of a drawable element: a canvas node with an optional
`_napiCanvas` back-reference (identified by a numeric id), or an image
node. -/
inductive DrawablePayload
  | canvasEl (napiCanvas : Option Nat)
  | imgEl (img : ImgData)
deriving Repr

/-- A drawable element together with the style/position data its
positioning walk reads. -/
structure DrawableElem where
  props : ElemProps
  ancestors : List ElemProps
  payload : DrawablePayload
deriving Repr

/-- A draw operation recorded on the output canvas. -/
inductive DrawOp
  | drawCanvas (napiCanvas : Nat) (x y : Int)
  | drawImage (image : DecodedImage) (x y w h : Int)
deriving DecidableEq, Repr

/-- One iteration of the compositing loop: `none` means the element was
skipped (canvas without back-reference, image without `src`, or a caught
and logged image load/draw failure). -/
def drawElement (loadImage : JSString → Except LoadError DecodedImage)
    (el : DrawableElem) : Option DrawOp :=
  let pos := resolveElementPosition el.props el.ancestors
  match el.payload with
  | .canvasEl none => none
  | .canvasEl (some napiCanvas) => some (.drawCanvas napiCanvas pos.1 pos.2)
  | .imgEl img =>
    match img.src with
    | none => none
    | some src =>
      let loaded :=
        match img.cached with
        | some existing => Except.ok existing
        | none => loadImage src
      match loaded with
      | .error _ => none
      | .ok image =>
        let w := img.cssWidth.getD (jsOrNum img.widthProp (jsOrNum (img.widthAttr.getD 0) image.width))
        let h := img.cssHeight.getD (jsOrNum img.heightProp (jsOrNum (img.heightAttr.getD 0) image.height))
        some (.drawImage image pos.1 pos.2 w h)

/-- The map state `mapToCanvas` observes. -/
structure MapModel where
  containerUsable : Bool
  initialElements : List DrawableElem
  elementsAfterForcedRenderer : List DrawableElem
  sizeX : Int
  sizeY : Int
  popupOps : List DrawOp

/-- The output canvas: its allocation size and the draw operations applied
to it, in order. -/
structure CanvasOut where
  width : Int
  height : Int
  ops : List DrawOp

/-- The export-precondition failures of `mapToCanvas`. -/
inductive ExportError
  | containerUnavailable
  | noDrawableContent
deriving DecidableEq, Repr

/-- Side-effects on the map observed during the export: whether the
transient forcing circle was added and whether it was removed again. -/
structure ExportTrace where
  circleAdded : Bool
  circleRemoved : Bool
deriving DecidableEq, Repr

/-- `mapToCanvas(map)`: allocate the output, check the container, scan for
drawable elements, apply the forcing hack when the scan is empty,
composite in DOM order, draw popup overlays, return the canvas; paired
with the trace of transient-circle effects. -/
def mapToCanvas (loadImage : JSString → Except LoadError DecodedImage)
    (m : MapModel) : Except ExportError CanvasOut × ExportTrace :=
  if !m.containerUsable then
    (.error .containerUnavailable, ⟨false, false⟩)
  else
    let drawableElements := m.initialElements
    if drawableElements.isEmpty then
      let drawableElements := drawableElements ++ m.elementsAfterForcedRenderer
      if drawableElements.isEmpty then
        (.error .noDrawableContent, ⟨true, true⟩)
      else
        let ops := drawableElements.filterMap (drawElement loadImage)
        (.ok ⟨m.sizeX, m.sizeY, ops ++ m.popupOps⟩, ⟨true, true⟩)
    else
      let ops := drawableElements.filterMap (drawElement loadImage)
      (.ok ⟨m.sizeX, m.sizeY, ops ++ m.popupOps⟩, ⟨false, false⟩)

/-! ## Environment initializer (`src/index.ts`, `initializeEnvironment`)

The process globals touched by the initializer are passed as an explicit
state record.  A mapping-library namespace is identified by the numeric id
it was allocated with, so "the identical cached reference" is expressible
as equality of namespaces. -/

/-- The loaded mapping-library namespace (`global.L`), identified by its
allocation id. -/
structure LeafletNamespace where
  id : Nat
deriving DecidableEq, Repr

/-- The process-global state the initializer reads and writes. -/
structure GlobalState where
  leafletGlobal : Option LeafletNamespace
  hasDocument : Bool
  hasWindow : Bool
  domsConstructed : Nat
  protoPatchApplications : Nat
  fontsRegistered : Bool
  nextNamespaceId : Nat
deriving DecidableEq, Repr

/-- `ensureDefaultFontsRegistered()`: guarded by the module-level
`fontsRegistered` flag, a no-op on every call after the first. -/
def ensureDefaultFontsRegistered (st : GlobalState) : GlobalState :=
  if st.fontsRegistered then st else { st with fontsRegistered := true }

/-- `initializeEnvironment(options)`: register fonts, return the cached
namespace when `global.L` is already set; otherwise reuse or construct the
DOM, load the library, patch the map prototype, and cache the namespace. -/
def initializeEnvironment (st0 : GlobalState) : LeafletNamespace × GlobalState :=
  let st := ensureDefaultFontsRegistered st0
  match st.leafletGlobal with
  | some cached => (cached, st)
  | none =>
    let hasExistingDom := st.hasDocument && st.hasWindow
    let st :=
      if hasExistingDom then st
      else { st with
              domsConstructed := st.domsConstructed + 1,
              hasDocument := true, hasWindow := true }
    let ns : LeafletNamespace := ⟨st.nextNamespaceId⟩
    let st := { st with
                 leafletGlobal := some ns,
                 nextNamespaceId := st.nextNamespaceId + 1,
                 protoPatchApplications := st.protoPatchApplications + 1 }
    (ns, st)

/-! ## Synthetic image element `src` setter (`src/index.ts`, the
`HTMLImageElement.prototype` patch)

One `src` assignment starts one load cycle: `loadImageSource(value)` raced
against a 30-second timeout, then exactly one of a `load` event (copying
the decoded dimensions) or an `error` event is dispatched.  The underlying
load's behaviour is embedded as its settlement time and result, with
`never` for a load that never settles. -/

/-- How the underlying `loadImageSource` promise behaves for one
assignment: settles at time `t` (milliseconds) with a result, or never
settles. -/
inductive LoadOutcome
  | settles (t : Nat) (r : Except LoadError DecodedImage)
  | never
deriving Repr

/-- The errors the race can produce: a loader failure, or the bounded
timeout firing. -/
inductive ImgLoadError
  | loadFailure (e : LoadError)
  | timeoutFired (timeoutMs : Nat)
deriving DecidableEq, Repr

/-- The image-load timeout in the source: 30000 ms. -/
def imageLoadTimeoutMs : Nat := 30000

/-- `Promise.race([loadImageSource(value), timeoutPromise])`: the load's
result when it settles strictly before the timeout, the timeout rejection
otherwise. -/
def raceWithTimeout (timeoutMs : Nat) : LoadOutcome → Except ImgLoadError DecodedImage
  | .settles t r =>
    if t < timeoutMs then
      match r with
      | .ok image => .ok image
      | .error e => .error (.loadFailure e)
    else .error (.timeoutFired timeoutMs)
  | .never => .error (.timeoutFired timeoutMs)

/-- DOM events the setter dispatches on the element. -/
inductive ImgEvent
  | load
  | error
deriving DecidableEq, Repr

/-- What one completed `src`-assignment cycle did to the element. -/
structure AssignResult where
  widthHeight : Option (Int × Int)
  events : List ImgEvent
deriving DecidableEq, Repr

/-- The `load` async function of the `src` setter: race the loader against
the timeout; on success copy `width`/`height` and dispatch `load`; on any
failure (including timeout) dispatch `error`. -/
def srcSetterCycle (outcome : LoadOutcome) : AssignResult :=
  match raceWithTimeout imageLoadTimeoutMs outcome with
  | .ok image => ⟨some (image.width, image.height), [.load]⟩
  | .error _ => ⟨none, [.error]⟩

/-! ## `waitForTiles` (`src/testing.ts`)

The promise executor is embedded as a state machine: the closure variables
`loaded`/`failed`/`total` plus the settlement of the promise, driven by the
tile-layer events.  `cleanup()` removes every listener before settling, so
events arriving after settlement leave the state unchanged (the `settled`
guard). -/

/-- The tile-layer state read by `isComplete`: `_tilesToLoad` (with `none`
for a missing or non-finite value) and the loading flag. -/
structure TileLayerState where
  tilesToLoad : Option Int
  loading : Bool
deriving DecidableEq, Repr

/-- How the promise settled. -/
inductive WaitResult
  | resolved
  | rejectedTile (tileUrl : JSString)
  | rejectedTimeout
deriving DecidableEq, Repr

/-- The executor's closure state. -/
structure WaitState where
  loaded : Int
  failed : Int
  total : Int
  settled : Option WaitResult
deriving DecidableEq, Repr

/-- A `tileerror` event payload: `event?.tile?.src` and `event?.coords`
(both embedded as optional strings). -/
structure TileErrorEvent where
  tileSrc : Option JSString
  coords : Option JSString
deriving DecidableEq, Repr

/-- `event?.tile?.src || event?.coords`, then `?? 'unknown tile'`. -/
def tileUrlOf (e : TileErrorEvent) : JSString :=
  match (if jsTruthy e.tileSrc then e.tileSrc else e.coords) with
  | some url => url
  | none => "unknown tile".data

/-- The events the executor reacts to, including the timeout firing. -/
inductive TileEvent
  | load
  | tileloadstart
  | tileload
  | tileerror (e : TileErrorEvent)
  | timeoutFire
deriving Repr

/-- `Math.max(_tilesToLoad || 0, 0)` under the `Number.isFinite` guard,
with `pending` as the fallback. -/
def tilesRemainingOf (layer : TileLayerState) (pending : Int) : Int :=
  match layer.tilesToLoad with
  | some n => max n 0
  | none => pending

/-- `isComplete()`: no longer loading with nothing pending, or the layer
itself reports zero tiles remaining. -/
def isComplete (layer : TileLayerState) (st : WaitState) : Bool :=
  let pending := st.total - st.loaded - st.failed
  let tilesRemaining := tilesRemainingOf layer pending
  (!layer.loading && pending ≤ 0) || tilesRemaining ≤ 0

/-- The initial closure state, before any event: `total` from the layer's
finite `_tilesToLoad` (else 0). -/
def waitForTilesInit (layer : TileLayerState) : WaitState :=
  let initialTotal :=
    match layer.tilesToLoad with
    | some n => max n 0
    | none => 0
  { loaded := 0, failed := 0, total := initialTotal, settled := none }

/-- Does `waitForTiles` resolve synchronously at call time?  (The
`if (isComplete()) { ...; resolve(); return; }` fast path.) -/
def resolvesImmediately (layer : TileLayerState) : Bool :=
  isComplete layer (waitForTilesInit layer)

/-- `handleLoad`: set `loaded` to `max(total - failed, loaded)`, clean up,
resolve. -/
def handleLoad (st : WaitState) : WaitState :=
  { st with loaded := max (st.total - st.failed) st.loaded, settled := some .resolved }

/-- `handleTileError`: bump `failed`, compute the failing tile's source
identifier, clean up, reject. -/
def handleTileError (st : WaitState) (e : TileErrorEvent) : WaitState :=
  let st := { st with failed := st.failed + 1 }
  { st with settled := some (.rejectedTile (tileUrlOf e)) }

/-- One event delivered to the executor; events after settlement are
dropped because `cleanup()` removed the listeners. -/
def waitForTilesStep (layer : TileLayerState) (st : WaitState) (ev : TileEvent) : WaitState :=
  match st.settled with
    | some _ => st
    | none =>
      match ev with
      | .load => handleLoad st
      | .tileloadstart => { st with total := st.total + 1 }
      | .tileload =>
        let st := { st with loaded := st.loaded + 1 }
        if isComplete layer st then handleLoad st else st
      | .tileerror e => handleTileError st e
      | .timeoutFire => { st with settled := some .rejectedTimeout }

/-! ## Spec-side helpers for the claims -/

/-- Modelled from the spec: the proxy-variable precedence chain as the spec
lists it — first non-empty value among `HTTPS_PROXY`, `HTTP_PROXY`, their
lowercase variants and `ALL_PROXY`, written out as an explicit decision
chain. -/
def proxyUrlSpec (env : ProxyEnv) : Option JSString :=
  if jsTruthy env.HTTPS_PROXY then env.HTTPS_PROXY
  else if jsTruthy env.https_proxy then env.https_proxy
  else if jsTruthy env.HTTP_PROXY then env.HTTP_PROXY
  else if jsTruthy env.http_proxy then env.http_proxy
  else if jsTruthy env.ALL_PROXY then env.ALL_PROXY
  else if jsTruthy env.all_proxy then env.all_proxy
  else none

/-! ## Theorems -/

/-- C6: the environment initializer is idempotent — once initialization has
run, a second call returns the identical cached namespace and the identical
global state, so in particular no new DOM is constructed and the prototype
patches are not re-applied. -/
theorem c6_initializeEnvironment_idempotent (st0 : GlobalState) :
    initializeEnvironment (initializeEnvironment st0).2 = initializeEnvironment st0 ∧
    (initializeEnvironment (initializeEnvironment st0).2).1 = (initializeEnvironment st0).1 ∧
    (initializeEnvironment (initializeEnvironment st0).2).2.domsConstructed =
      (initializeEnvironment st0).2.domsConstructed ∧
    (initializeEnvironment (initializeEnvironment st0).2).2.protoPatchApplications =
      (initializeEnvironment st0).2.protoPatchApplications := by
  have h : initializeEnvironment (initializeEnvironment st0).2 = initializeEnvironment st0 := by
    rcases st0 with ⟨lg, hd, hw, dc, pp, fr, nid⟩
    cases lg <;> cases fr <;> cases hd <;> cases hw <;>
      simp [initializeEnvironment, ensureDefaultFontsRegistered]
  exact ⟨h, by rw [h], by rw [h], by rw [h]⟩

/-- C7: the proxy dispatcher is resolved from the environment variables by
taking the first non-empty value in the fixed precedence order, yields a
`ProxyAgent` dispatcher exactly when one is set, and the resolved result —
including the no-proxy result — is cached and reused by every later call,
regardless of how the environment has changed since. -/
theorem c7_resolveProxyDispatcher_caching :
    (∀ env, proxyUrlOf env = proxyUrlSpec env) ∧
    (∀ env, (resolveProxyDispatcher env none).1 =
      (proxyUrlSpec env).map Dispatcher.proxyAgent) ∧
    (∀ env cached, resolveProxyDispatcher env (some cached) = (cached, some cached)) ∧
    (∀ env envLater,
      resolveProxyDispatcher envLater (resolveProxyDispatcher env none).2 =
        ((resolveProxyDispatcher env none).1, (resolveProxyDispatcher env none).2)) := by
  refine ⟨?_, ?_, ?_, ?_⟩
  · intro env
    simp [proxyUrlOf, proxyUrlSpec, firstTruthy]
  · intro env
    have h : proxyUrlOf env = proxyUrlSpec env := by
      simp [proxyUrlOf, proxyUrlSpec, firstTruthy]
    simp [resolveProxyDispatcher, h]
    cases proxyUrlSpec env <;> simp
  · intro env cached
    rfl
  · intro env envLater
    simp [resolveProxyDispatcher]

/-- C8: for every `src` assignment, exactly one of the `load`/`error`
completions fires: a load that settles successfully before the 30-second
timeout copies the decoded width/height and fires `load`; a failing load
fires `error`; and a load still unsettled when the timeout elapses (or one
that never settles) is treated as a failure and fires `error` rather than
hanging. -/
theorem c8_srcSetter_one_completion :
    (∀ outcome, (srcSetterCycle outcome).events = [ImgEvent.load] ∨
      (srcSetterCycle outcome).events = [ImgEvent.error]) ∧
    (∀ t image, t < imageLoadTimeoutMs →
      srcSetterCycle (.settles t (.ok image)) =
        ⟨some (image.width, image.height), [ImgEvent.load]⟩) ∧
    (∀ t e, t < imageLoadTimeoutMs →
      srcSetterCycle (.settles t (.error e)) = ⟨none, [ImgEvent.error]⟩) ∧
    (∀ t r, imageLoadTimeoutMs ≤ t →
      srcSetterCycle (.settles t r) = ⟨none, [ImgEvent.error]⟩) ∧
    (srcSetterCycle .never = ⟨none, [ImgEvent.error]⟩) := by
  refine ⟨?_, ?_, ?_, ?_, rfl⟩
  · intro outcome
    cases outcome with
    | settles t r =>
      by_cases h : t < imageLoadTimeoutMs
      · cases r <;> simp [srcSetterCycle, raceWithTimeout, h]
      · simp [srcSetterCycle, raceWithTimeout, h]
    | never => simp [srcSetterCycle, raceWithTimeout]
  · intro t image h
    simp [srcSetterCycle, raceWithTimeout, h]
  · intro t e h
    simp [srcSetterCycle, raceWithTimeout, h]
  · intro t r h
    simp [srcSetterCycle, raceWithTimeout, Nat.not_lt.mpr h]

/-- Witness for C8 at a concrete settled load and a concrete timeout. -/
theorem c8_witness :
    srcSetterCycle (.settles 5 (.ok ⟨256, 256⟩)) =
      ⟨some (256, 256), [ImgEvent.load]⟩ ∧
    srcSetterCycle (.settles 40000 (.ok ⟨256, 256⟩)) = ⟨none, [ImgEvent.error]⟩ :=
  ⟨c8_srcSetter_one_completion.2.1 5 ⟨256, 256⟩ (by decide),
   c8_srcSetter_one_completion.2.2.2.1 40000 (.ok ⟨256, 256⟩) (by decide)⟩

/-- One step of the positioning walk, rephrased through the per-element
contribution. -/
theorem accumulateStep_eq_contribution (acc : Int × Int × Bool) (e : ElemProps) :
    accumulateStep acc e =
      match elemContribution e with
      | some p => (acc.1 + p.1, acc.2.1 + p.2, true)
      | none => acc := by
  unfold accumulateStep elemContribution
  rcases e with ⟨lp, tr, l, t, ml, mt, ol, ot⟩
  rcases lp with _ | ⟨px, py⟩
  · dsimp only
    split <;> simp_all
  · rcases px with _ | px <;> rcases py with _ | py <;> dsimp only <;>
      first
        | rfl
        | (split <;> simp_all)

/-- The positioning fold accumulates exactly the sum of the per-element
contributions, and its `found` flag records whether any element
contributed. -/
theorem foldl_accumulateStep (l : List ElemProps) (x y : Int) (b : Bool) :
    l.foldl accumulateStep (x, y, b) =
      (x + ((l.filterMap elemContribution).map Prod.fst).sum,
       y + ((l.filterMap elemContribution).map Prod.snd).sum,
       b || !((l.filterMap elemContribution).isEmpty)) := by
  induction l generalizing x y b with
  | nil => simp
  | cons e rest ih =>
    rw [List.foldl_cons, accumulateStep_eq_contribution]
    cases hc : elemContribution e with
    | none =>
      simp only [List.filterMap_cons, hc]
      exact ih x y b
    | some p =>
      simp only [List.filterMap_cons, hc]
      rw [ih]
      simp [add_assoc]

/-- An element that contributes nothing has, in particular, a transform
without usable translation value. -/
theorem elemContribution_none_hasValue (e : ElemProps)
    (h : elemContribution e = none) :
    (parseTransform e.transform).hasValue = false := by
  unfold elemContribution at h
  split at h
  · exact absurd h (by simp)
  · by_cases hv : (parseTransform e.transform).hasValue = true
    · simp [hv] at h
    · simpa using hv

/-- C2: the effective offset of a drawable element is computed exactly as
the spec describes — each visited element (itself and its ancestors below
the container) contributes its `_leaflet_pos` annotation when present,
otherwise its parsed CSS transform translation; only when nothing
contributed does the computation fall back to its own `left`/`top` style
pixels or DOM offset properties, and the element's own margin corrections
are added in every case. -/
theorem c2_resolveElementPosition_eq_spec (element : ElemProps) (ancestors : List ElemProps) :
    resolveElementPosition element ancestors = resolveElementPositionSpec element ancestors := by
  simp only [resolveElementPosition, resolveElementPositionSpec, accumulateLeafletPosition]
  rw [foldl_accumulateStep]
  cases hc : (element :: ancestors).filterMap elemContribution with
  | nil =>
    have hel : elemContribution element = none := by
      cases h : elemContribution element with
      | none => rfl
      | some p => simp [List.filterMap_cons, h] at hc
    have htr : (parseTransform element.transform).hasValue = false :=
      elemContribution_none_hasValue element hel
    rcases element with ⟨lp, tr, l, t, ml, mt, ol, ot⟩
    dsimp only at htr ⊢
    cases l <;> cases t <;> cases ml <;> cases mt <;> cases ol <;> cases ot <;>
      simp [ownFallback, marginCorrection, htr]
  | cons p ps =>
    cases hml : element.marginLeft <;> cases hmt : element.marginTop <;>
      simp [marginCorrection, hml, hmt]

/-- C1: when the container is usable but the initial scan finds zero
drawable elements, `mapToCanvas` adds the transient forcing circle,
re-scans, removes the circle on both the success and the failure path, and
fails with the no-drawable-content error exactly when the re-scan still
finds nothing (in which case an `ok` result composites the re-scanned
elements); when the container is not a usable DOM element it fails with
the container-unavailable error with no compositing and no transient
circle. -/
theorem c1_mapToCanvas_forcing_hack (li : JSString → Except LoadError DecodedImage)
    (m : MapModel) :
    (m.containerUsable = false →
      mapToCanvas li m = (.error .containerUnavailable, ⟨false, false⟩)) ∧
    (m.containerUsable = true → m.initialElements = [] →
      (mapToCanvas li m).2.circleAdded = true ∧
      (mapToCanvas li m).2.circleRemoved = true ∧
      ((mapToCanvas li m).1 = .error .noDrawableContent ↔
        m.elementsAfterForcedRenderer = []) ∧
      (∀ c, (mapToCanvas li m).1 = .ok c →
        c.ops = m.elementsAfterForcedRenderer.filterMap (drawElement li) ++ m.popupOps)) := by
  constructor
  · intro h
    simp [mapToCanvas, h]
  · intro hu hinit
    cases hafter : m.elementsAfterForcedRenderer with
    | nil =>
      refine ⟨?_, ?_, ?_, ?_⟩ <;>
        simp [mapToCanvas, hu, hinit, hafter]
    | cons e rest =>
      refine ⟨?_, ?_, ?_, ?_⟩ <;>
        simp [mapToCanvas, hu, hinit, hafter]

/-- Witness for C1: a usable container whose re-scan after the forcing
circle still finds nothing yields the no-drawable-content failure with the
circle added and removed, and an unusable container fails up front. -/
theorem c1_witness :
    mapToCanvas (fun _ => Except.error .invalidDataUri)
        ⟨true, [], [], 256, 256, []⟩ =
      (.error .noDrawableContent, ⟨true, true⟩) ∧
    mapToCanvas (fun _ => Except.error .invalidDataUri)
        ⟨false, [], [], 256, 256, []⟩ =
      (.error .containerUnavailable, ⟨false, false⟩) := by
  have h := c1_mapToCanvas_forcing_hack (fun _ => Except.error .invalidDataUri)
    ⟨true, [], [], 256, 256, []⟩
  have h2 := c1_mapToCanvas_forcing_hack (fun _ => Except.error .invalidDataUri)
    ⟨false, [], [], 256, 256, []⟩
  refine ⟨?_, h2.1 rfl⟩
  have h3 := h.2 rfl rfl
  have herr : (mapToCanvas (fun _ => Except.error .invalidDataUri)
      ⟨true, [], [], 256, 256, []⟩).1 = .error .noDrawableContent :=
    h3.2.2.1.mpr rfl
  have htrace := h3.1
  have htrace2 := h3.2.1
  rcases hm : mapToCanvas (fun _ => Except.error .invalidDataUri)
      ⟨true, [], [], 256, 256, []⟩ with ⟨res, tr⟩
  rw [hm] at herr htrace htrace2
  rcases tr with ⟨ca, cr⟩
  simp_all

/-- An image element whose cached back-reference is absent and whose source
fails to load through the resource loader. -/
def imgLoadFails (li : JSString → Except LoadError DecodedImage) (el : DrawableElem) : Prop :=
  ∃ img src, el.payload = .imgEl img ∧ img.src = some src ∧ img.cached = none ∧
    ∃ err, li src = .error err

/-- A failing image element is caught and skipped by the compositing
loop. -/
theorem drawElement_of_imgLoadFails (li : JSString → Except LoadError DecodedImage)
    (el : DrawableElem) (h : imgLoadFails li el) : drawElement li el = none := by
  obtain ⟨img, src, hpayload, hsrc, hcached, err, herr⟩ := h
  unfold drawElement
  rw [hpayload]
  simp [hsrc, hcached, herr]

/-- C9: a failure to load a single image element during the compositing
loop is skipped and the export still succeeds, compositing every other
drawable element whose own draw produces an operation — one broken image
never rejects the whole export. -/
theorem c9_mapToCanvas_single_image_failure (li : JSString → Except LoadError DecodedImage)
    (m : MapModel) (xs ys : List DrawableElem) (bad : DrawableElem)
    (hu : m.containerUsable = true)
    (hinit : m.initialElements = xs ++ bad :: ys)
    (hbad : imgLoadFails li bad) :
    ∃ c, (mapToCanvas li m).1 = .ok c ∧
      c.ops = xs.filterMap (drawElement li) ++ ys.filterMap (drawElement li) ++ m.popupOps ∧
      ∀ el ∈ xs ++ ys, ∀ op, drawElement li el = some op → op ∈ c.ops := by
  have hbadnone : drawElement li bad = none := drawElement_of_imgLoadFails li bad hbad
  have hne : m.initialElements.isEmpty = false := by
    rw [hinit]
    cases xs <;> simp
  refine ⟨⟨m.sizeX, m.sizeY, m.initialElements.filterMap (drawElement li) ++ m.popupOps⟩,
    ?_, ?_, ?_⟩
  · simp [mapToCanvas, hu, hne]
  · rw [hinit]
    simp [List.filterMap_append, List.filterMap_cons, hbadnone]
  · intro el hel op hop
    dsimp only
    rw [hinit]
    have : op ∈ (xs ++ bad :: ys).filterMap (drawElement li) := by
      rw [List.mem_filterMap]
      refine ⟨el, ?_, hop⟩
      rcases List.mem_append.mp hel with h | h
      · exact List.mem_append.mpr (Or.inl h)
      · exact List.mem_append.mpr (Or.inr (List.mem_cons_of_mem bad h))
    exact List.mem_append.mpr (Or.inl this)

/-- An element with no style or position annotations at all. -/
def sampleProps : ElemProps := ⟨none, none, none, none, none, none, none, none⟩

/-- A canvas drawable backed by native canvas number 7. -/
def sampleCanvasElem : DrawableElem := ⟨sampleProps, [], .canvasEl (some 7)⟩

/-- An image drawable whose load will fail. -/
def sampleBadImgElem : DrawableElem :=
  ⟨sampleProps, [], .imgEl ⟨some "bad.png".data, none, 0, 0, none, none, none, none⟩⟩

/-- A loader for which every image load fails. -/
def sampleFailingLoader : JSString → Except LoadError DecodedImage :=
  fun _ => .error .invalidDataUri

/-- A map whose container holds one healthy canvas and one broken image. -/
def sampleMapModel : MapModel :=
  ⟨true, [sampleCanvasElem, sampleBadImgElem], [], 800, 600, []⟩

/-- Witness for C9: with one healthy canvas and one image whose load fails,
the export succeeds and composites the canvas. -/
theorem c9_witness :
    ∃ c, (mapToCanvas sampleFailingLoader sampleMapModel).1 = .ok c ∧
      c.ops = [sampleCanvasElem].filterMap (drawElement sampleFailingLoader) ++
        ([] : List DrawableElem).filterMap (drawElement sampleFailingLoader) ++
        sampleMapModel.popupOps ∧
      ∀ el ∈ [sampleCanvasElem] ++ ([] : List DrawableElem), ∀ op,
        drawElement sampleFailingLoader el = some op → op ∈ c.ops :=
  c9_mapToCanvas_single_image_failure sampleFailingLoader sampleMapModel
    [sampleCanvasElem] [] sampleBadImgElem rfl rfl
    ⟨⟨some "bad.png".data, none, 0, 0, none, none, none, none⟩, "bad.png".data,
      rfl, rfl, rfl, .invalidDataUri, rfl⟩

/-- C3: `loadImageSource` dispatches by string prefix in the spec's
precedence — `http(s)://` sources go through the network fetch path,
`data:` sources are rejected when no comma separator is present and
otherwise have their payload decoded (base64 when the `;base64,` marker
precedes the comma, literally otherwise), `file://` sources are read from
the filesystem after the scheme is stripped, and anything else is treated
as a bare filesystem path — and for both filesystem kinds the trailing
query string is stripped before both the existence check and the read. -/
theorem c3_loadImageSource_dispatch (env : LoadEnv) (src : JSString) :
    (classifySource src = .network →
      loadImageSource env src = (loadFromUrl env src).bind (bufferToImage env)) ∧
    (classifySource src = .dataUri →
      (src.findIdx? (· == ',') = none →
        loadImageSource env src = .error .invalidDataUri) ∧
      (∀ commaIndex, src.findIdx? (· == ',') = some commaIndex →
        loadImageSource env src =
          bufferToImage env
            (if occursAtLe ";base64,".data src commaIndex
             then env.base64Decode (src.drop (commaIndex + 1))
             else utf8Encode (src.drop (commaIndex + 1))))) ∧
    (classifySource src = .fileUrl →
      loadImageSource env src =
        (if env.fileExists (stripQuerystring (src.drop 7))
         then bufferToImage env (env.readFile (stripQuerystring (src.drop 7)))
         else .error (.notFoundError (stripQuerystring (src.drop 7))))) ∧
    (classifySource src = .barePath →
      loadImageSource env src =
        (if env.fileExists (stripQuerystring src)
         then bufferToImage env (env.readFile (stripQuerystring src))
         else .error (.notFoundError (stripQuerystring src)))) := by
  by_cases h1 : ("https://".data.isPrefixOf src || "http://".data.isPrefixOf src) = true
  · refine ⟨fun _ => ?_, fun hk => ?_, fun hk => ?_, fun hk => ?_⟩
    · simp [loadImageSource, loadImageBuffer, h1]
    all_goals simp [classifySource, h1] at hk
  · by_cases h2 : ("data:".data.isPrefixOf src) = true
    · refine ⟨fun hk => ?_, fun _ => ⟨fun hc => ?_, fun commaIndex hc => ?_⟩,
        fun hk => ?_, fun hk => ?_⟩
      · simp [classifySource, h1, h2] at hk
      · simp only [loadImageSource, loadImageBuffer, h1, h2, hc,
          Bool.false_eq_true, if_false, if_true]
        rfl
      · simp [loadImageSource, loadImageBuffer, h1, h2, hc]
        split <;> rfl
      all_goals simp [classifySource, h1, h2] at hk
    · by_cases h3 : ("file://".data.isPrefixOf src) = true
      · refine ⟨fun hk => ?_, fun hk => ?_, fun _ => ?_, fun hk => ?_⟩
        · simp [classifySource, h1, h2, h3] at hk
        · simp [classifySource, h1, h2, h3] at hk
        · simp only [loadImageSource, loadImageBuffer, h1, h2, h3,
            Bool.false_eq_true, if_false, if_true, loadFromFile]
          split <;> rfl
        · simp [classifySource, h1, h2, h3] at hk
      · refine ⟨fun hk => ?_, fun hk => ?_, fun hk => ?_, fun _ => ?_⟩
        · simp [classifySource, h1, h2, h3] at hk
        · simp [classifySource, h1, h2, h3] at hk
        · simp [classifySource, h1, h2, h3] at hk
        · simp only [loadImageSource, loadImageBuffer, h1, h2, h3,
            Bool.false_eq_true, if_false, loadFromFile]
          split <;> rfl

/-- A concrete loader environment: only `/tmp/a.png` exists on disk, the
network always fails, and every byte buffer decodes. -/
def sampleLoadEnv : LoadEnv :=
  { fetch := fun _ => .networkFailure
    fileExists := fun p => p == "/tmp/a.png".data
    readFile := fun _ => [1, 2, 3]
    decodeImage := fun _ => some ⟨1, 1⟩
    base64Decode := fun _ => [] }

/-- Witness for C3 at a concrete `file://` source carrying a query
string. -/
theorem c3_witness :
    classifySource "file:///tmp/a.png?v=1".data = SourceKind.fileUrl ∧
    loadImageSource sampleLoadEnv "file:///tmp/a.png?v=1".data =
      (if sampleLoadEnv.fileExists (stripQuerystring ("file:///tmp/a.png?v=1".data.drop 7))
       then bufferToImage sampleLoadEnv
         (sampleLoadEnv.readFile (stripQuerystring ("file:///tmp/a.png?v=1".data.drop 7)))
       else .error (.notFoundError (stripQuerystring ("file:///tmp/a.png?v=1".data.drop 7)))) :=
  ⟨by decide,
   (c3_loadImageSource_dispatch sampleLoadEnv "file:///tmp/a.png?v=1".data).2.2.1 (by decide)⟩

/-- Modelled from the spec: a network/status failure occurred — the source
was a network source and the fetch either rejected or returned a non-2xx
status. -/
def fetchFailureOccurs (env : LoadEnv) (src : JSString) : Bool :=
  (classifySource src == .network) &&
    (match env.fetch src with
     | .networkFailure => true
     | .response r => !r.ok)

/-- Modelled from the spec: a missing-local-file failure occurred — the
source was a filesystem source and, after query-string stripping, the file
does not exist. -/
def missingFileOccurs (env : LoadEnv) (src : JSString) : Bool :=
  (classifySource src == .fileUrl && !(env.fileExists (stripQuerystring (src.drop 7)))) ||
  (classifySource src == .barePath && !(env.fileExists (stripQuerystring src)))

/-- Modelled from the spec: a decode-class failure occurred — an invalid
data URI (no comma separator), or the raster engine rejected the produced
bytes. -/
def decodeFailureOccurs (env : LoadEnv) (src : JSString) : Bool :=
  (classifySource src == .dataUri && (src.findIdx? (· == ',')).isNone) ||
  (match loadImageBuffer env src with
   | .ok bytes => (env.decodeImage bytes).isNone
   | .error _ => false)

/-- C4: whenever `loadImageSource` fails, the error's kind matches the
failure class exactly — `FetchError` precisely for network/status
failures, `NotFoundError` precisely for missing local files, and
`DecodeError` precisely for invalid data URIs and bytes the raster engine
rejects. -/
theorem c4_loadImageSource_error_kinds (env : LoadEnv) (src : JSString) (e : LoadError)
    (herr : loadImageSource env src = .error e) :
    (e.kind = .fetch ↔ fetchFailureOccurs env src = true) ∧
    (e.kind = .notFound ↔ missingFileOccurs env src = true) ∧
    (e.kind = .decode ↔ decodeFailureOccurs env src = true) := by
  by_cases h1 : ("https://".data.isPrefixOf src || "http://".data.isPrefixOf src) = true
  · have hcl : classifySource src = .network := by simp [classifySource, h1]
    cases hf : env.fetch src with
    | networkFailure =>
      have he : e = .fetchError src none := by
        simp [loadImageSource, loadImageBuffer, loadFromUrl, h1, hf, Except.bind] at herr
        exact herr.symm
      subst he
      simp [LoadError.kind, fetchFailureOccurs, missingFileOccurs, decodeFailureOccurs,
        loadImageBuffer, loadFromUrl, hcl, hf, h1]
    | response r =>
      by_cases hok : r.ok = true
      · cases hd : env.decodeImage r.body with
        | some img =>
          simp [loadImageSource, loadImageBuffer, loadFromUrl, bufferToImage,
            h1, hf, hok, hd, Except.bind] at herr
        | none =>
          have he : e = .decodeFailure r.body := by
            simp [loadImageSource, loadImageBuffer, loadFromUrl, bufferToImage,
              h1, hf, hok, hd, Except.bind] at herr
            exact herr.symm
          subst he
          simp [LoadError.kind, fetchFailureOccurs, missingFileOccurs, decodeFailureOccurs,
            loadImageBuffer, loadFromUrl, hcl, hf, hok, hd, h1]
      · have he : e = .fetchError src (some (r.status, r.statusText)) := by
          simp [loadImageSource, loadImageBuffer, loadFromUrl, h1, hf, hok,
            Except.bind] at herr
          exact herr.symm
        subst he
        simp [LoadError.kind, fetchFailureOccurs, missingFileOccurs, decodeFailureOccurs,
          loadImageBuffer, loadFromUrl, hcl, hf, hok, h1]
  · by_cases h2 : ("data:".data.isPrefixOf src) = true
    · have hcl : classifySource src = .dataUri := by simp [classifySource, h1, h2]
      cases hc : src.findIdx? (· == ',') with
      | none =>
        have he : e = .invalidDataUri := by
          simp [loadImageSource, loadImageBuffer, h1, h2, hc, Except.bind] at herr
          exact herr.symm
        subst he
        simp [LoadError.kind, fetchFailureOccurs, missingFileOccurs, decodeFailureOccurs,
          loadImageBuffer, hcl, h1, h2, hc]
      | some commaIndex =>
        set bytes := (if occursAtLe ";base64,".data src commaIndex
          then env.base64Decode (src.drop (commaIndex + 1))
          else utf8Encode (src.drop (commaIndex + 1))) with hbytes
        cases hd : env.decodeImage bytes with
        | some img =>
          simp [loadImageSource, loadImageBuffer, bufferToImage, h1, h2, hc,
            ← hbytes, hd, Except.bind] at herr
        | none =>
          have he : e = .decodeFailure bytes := by
            simp [loadImageSource, loadImageBuffer, bufferToImage, h1, h2, hc,
              ← hbytes, hd, Except.bind] at herr
            exact herr.symm
          subst he
          simp [LoadError.kind, fetchFailureOccurs, missingFileOccurs, decodeFailureOccurs,
            loadImageBuffer, hcl, h1, h2, hc, ← hbytes, hd]
    · by_cases h3 : ("file://".data.isPrefixOf src) = true
      · have hcl : classifySource src = .fileUrl := by simp [classifySource, h1, h2, h3]
        by_cases hex : env.fileExists (stripQuerystring (src.drop 7)) = true
        · cases hd : env.decodeImage (env.readFile (stripQuerystring (src.drop 7))) with
          | some img =>
            simp [loadImageSource, loadImageBuffer, loadFromFile, bufferToImage,
              h1, h2, h3, hex, hd, Except.bind] at herr
          | none =>
            have he : e = .decodeFailure (env.readFile (stripQuerystring (src.drop 7))) := by
              simp [loadImageSource, loadImageBuffer, loadFromFile, bufferToImage,
                h1, h2, h3, hex, hd, Except.bind] at herr
              exact herr.symm
            subst he
            simp [LoadError.kind, fetchFailureOccurs, missingFileOccurs, decodeFailureOccurs,
              loadImageBuffer, loadFromFile, hcl, h1, h2, h3, hex, hd]
        · have he : e = .notFoundError (stripQuerystring (src.drop 7)) := by
            simp [loadImageSource, loadImageBuffer, loadFromFile, h1, h2, h3, hex,
              Except.bind] at herr
            exact herr.symm
          subst he
          simp [LoadError.kind, fetchFailureOccurs, missingFileOccurs, decodeFailureOccurs,
            loadImageBuffer, loadFromFile, hcl, h1, h2, h3, hex]
      · have hcl : classifySource src = .barePath := by simp [classifySource, h1, h2, h3]
        by_cases hex : env.fileExists (stripQuerystring src) = true
        · cases hd : env.decodeImage (env.readFile (stripQuerystring src)) with
          | some img =>
            simp [loadImageSource, loadImageBuffer, loadFromFile, bufferToImage,
              h1, h2, h3, hex, hd, Except.bind] at herr
          | none =>
            have he : e = .decodeFailure (env.readFile (stripQuerystring src)) := by
              simp [loadImageSource, loadImageBuffer, loadFromFile, bufferToImage,
                h1, h2, h3, hex, hd, Except.bind] at herr
              exact herr.symm
            subst he
            simp [LoadError.kind, fetchFailureOccurs, missingFileOccurs, decodeFailureOccurs,
              loadImageBuffer, loadFromFile, hcl, h1, h2, h3, hex, hd]
        · have he : e = .notFoundError (stripQuerystring src) := by
            simp [loadImageSource, loadImageBuffer, loadFromFile, h1, h2, h3, hex,
              Except.bind] at herr
            exact herr.symm
          subst he
          simp [LoadError.kind, fetchFailureOccurs, missingFileOccurs, decodeFailureOccurs,
            loadImageBuffer, loadFromFile, hcl, h1, h2, h3, hex]

/-- Witness for C4 at a concrete missing bare-path file. -/
theorem c4_witness :
    loadImageSource sampleLoadEnv "missing.png".data =
      .error (.notFoundError "missing.png".data) ∧
    (((LoadError.notFoundError "missing.png".data).kind = .fetch) ↔
      fetchFailureOccurs sampleLoadEnv "missing.png".data = true) ∧
    (((LoadError.notFoundError "missing.png".data).kind = .notFound) ↔
      missingFileOccurs sampleLoadEnv "missing.png".data = true) ∧
    (((LoadError.notFoundError "missing.png".data).kind = .decode) ↔
      decodeFailureOccurs sampleLoadEnv "missing.png".data = true) :=
  ⟨by rfl,
   c4_loadImageSource_error_kinds sampleLoadEnv "missing.png".data
     (.notFoundError "missing.png".data) (by rfl)⟩

/-- A `data:` source does not carry an `http(s)://` prefix. -/
theorem data_prefix_not_http (src : JSString) (h : "data:".data.isPrefixOf src = true) :
    ("https://".data.isPrefixOf src || "http://".data.isPrefixOf src) = false := by
  cases src with
  | nil => simp [List.isPrefixOf] at h
  | cons c rest =>
    simp [List.isPrefixOf] at h ⊢
    rcases h with ⟨hc, -⟩
    subst hc
    simp

/-- C10: for a `data:` source that contains a comma but lacks a `;base64,`
marker before it, the payload after the comma is handed to the raster
engine's decoder as its literal per-character bytes — no percent-decoding
is applied — so whenever the decoder rejects those literal bytes the load
fails with the decode-failure error carrying them. -/
theorem c10_data_uri_literal_payload (env : LoadEnv) (src : JSString) (commaIndex : Nat)
    (hdata : "data:".data.isPrefixOf src = true)
    (hc : src.findIdx? (· == ',') = some commaIndex)
    (hb : occursAtLe ";base64,".data src commaIndex = false) :
    loadImageBuffer env src = .ok ((src.drop (commaIndex + 1)).map Char.toNat) ∧
    loadImageSource env src =
      bufferToImage env ((src.drop (commaIndex + 1)).map Char.toNat) ∧
    (env.decodeImage ((src.drop (commaIndex + 1)).map Char.toNat) = none →
      loadImageSource env src =
        .error (.decodeFailure ((src.drop (commaIndex + 1)).map Char.toNat))) := by
  have h1 := data_prefix_not_http src hdata
  have hbuf : loadImageBuffer env src = .ok ((src.drop (commaIndex + 1)).map Char.toNat) := by
    simp [loadImageBuffer, h1, hdata, hc, hb, utf8Encode]
  refine ⟨hbuf, ?_, ?_⟩
  · simp [loadImageSource, hbuf, Except.bind]
  · intro hd
    simp only [loadImageSource, hbuf, Except.bind, bufferToImage, hd]

/-- A loader environment whose raster engine rejects every byte buffer. -/
def rejectingDecodeEnv : LoadEnv :=
  { fetch := fun _ => .networkFailure
    fileExists := fun _ => false
    readFile := fun _ => []
    decodeImage := fun _ => none
    base64Decode := fun _ => [] }

/-- Witness for C10 at the claim's example: a percent-encoded SVG data URI
reaches the decoder still percent-encoded (the first payload byte is the
`%` character, code 37) and fails with a decode error. -/
theorem c10_witness :
    loadImageBuffer rejectingDecodeEnv "data:image/svg+xml,%3Csvg".data =
      .ok (("data:image/svg+xml,%3Csvg".data.drop 19).map Char.toNat) ∧
    ("data:image/svg+xml,%3Csvg".data.drop 19).map Char.toNat =
      [37, 51, 67, 115, 118, 103] ∧
    loadImageSource rejectingDecodeEnv "data:image/svg+xml,%3Csvg".data =
      .error (.decodeFailure (("data:image/svg+xml,%3Csvg".data.drop 19).map Char.toNat)) :=
  ⟨(c10_data_uri_literal_payload rejectingDecodeEnv "data:image/svg+xml,%3Csvg".data 18
      (by decide) (by decide) (by decide)).1,
   by decide,
   (c10_data_uri_literal_payload rejectingDecodeEnv "data:image/svg+xml,%3Csvg".data 18
      (by decide) (by decide) (by decide)).2.2 rfl⟩

/-- The concrete tile layer just before the final-tile error: Leaflet has
already decremented the outstanding-tile count to zero and cleared the
loading flag. -/
def finalErrorLayer : TileLayerState := ⟨some 0, false⟩

/-- The concrete pending wait state: one tile total, none loaded, none
failed yet. -/
def pendingOneTileState : WaitState := ⟨0, 0, 1, none⟩

/-- The concrete tile error event carrying the failing tile's source. -/
def finalTileErrorEvent : TileErrorEvent :=
  ⟨some "http://example.com/final.png".data, none⟩

/-- Counterexample for C5: a tile error arriving while `waitForTiles` is
pending, for the last pending tile and with the layer no longer loading —
the completion condition holds after the error, yet the promise is
rejected, not resolved.  So it is false that the promise resolves when the
errored tile was the last pending one. -/
theorem c5_counterexample :
    pendingOneTileState.settled = none ∧
    isComplete finalErrorLayer
      { pendingOneTileState with failed := pendingOneTileState.failed + 1 } = true ∧
    (waitForTilesStep finalErrorLayer pendingOneTileState
        (.tileerror finalTileErrorEvent)).settled =
      some (.rejectedTile "http://example.com/final.png".data) ∧
    (waitForTilesStep finalErrorLayer pendingOneTileState
        (.tileerror finalTileErrorEvent)).settled ≠ some .resolved := by
  refine ⟨rfl, by decide, by decide, by decide⟩

/-- C5 (amended): every tile error that arrives while `waitForTiles` is
still pending rejects the promise with the failing tile's source
identifier (its `src`, else its `coords`, else `unknown tile`), regardless
of whether the layer has thereby finished loading. -/
theorem c5_tileerror_always_rejects (layer : TileLayerState) (st : WaitState)
    (e : TileErrorEvent) (hpending : st.settled = none) :
    waitForTilesStep layer st (.tileerror e) =
      { st with failed := st.failed + 1,
                settled := some (.rejectedTile (tileUrlOf e)) } := by
  simp [waitForTilesStep, hpending, handleTileError]

/-- Witness for the amended C5 at the concrete final-tile scenario. -/
theorem c5_witness :
    waitForTilesStep finalErrorLayer pendingOneTileState
        (.tileerror finalTileErrorEvent) =
      { pendingOneTileState with
          failed := pendingOneTileState.failed + 1,
          settled := some (.rejectedTile (tileUrlOf finalTileErrorEvent)) } :=
  c5_tileerror_always_rejects finalErrorLayer pendingOneTileState finalTileErrorEvent rfl

end LeafletNode
